import Mathlib

/-!
Verification development for the panda3d-gemstone configuration/casting
pipeline: a shallow embedding in Lean 4 of the framework's `cast`, `pcast`,
`Configurable`, resource-export and indented-file components, together with
theorems settling the specification's claims about them.

Python conventions used throughout the embedding:
* Python strings are Lean `String`s (indexing/slicing works on `String.data`).
* Python `float` literals appearing in the claims are exactly representable,
  so floats are modelled as exact fractions (`PyFloat`).
* Fallible Python code returns `Except PyExc _`; `PyExc` lists the exception
  kinds the embedded code can raise.
* Python dicts preserve insertion order and update-in-place; they are
  modelled as association lists with an order-preserving `dictSet`.
-/

namespace Gemstone

/-- Python exceptions that the embedded code can raise. `nameError` carries
the undefined name, `attributeError` the missing attribute. `notifyError`
stands for the exception raised by Panda3D's `DirectNotify` `Notifier.error`,
which raises instead of logging. `recursionError` is the fuel-exhaustion
marker of the embedding (Python's `RecursionError`); the fuel supplied at
every top-level entry point below is large enough that it is never reached
on the inputs the theorems evaluate. -/
inductive PyExc where
  | indexError
  | valueError
  | typeError
  | ioError
  | attributeError (attr : String)
  | nameError (missing : String)
  | syntaxError
  | stopIteration
  | tokenError
  | notifyError
  | recursionError
deriving DecidableEq, Repr

/-- Fuelled Euclidean algorithm (structural recursion, so that concrete
values reduce definitionally; `Nat.gcd` itself is defined by well-founded
recursion and would block `rfl`). -/
def natGcdFuel : Nat → Nat → Nat → Nat
  | 0, _, b => b
  | Nat.succ fuel, a, b => if a == 0 then b else natGcdFuel fuel (b % a) a

/-- Greatest common divisor with always-sufficient fuel. -/
def natGcd (a b : Nat) : Nat :=
  natGcdFuel (2 * (a + b) + 2) a b

/-- A Python `float` value, as a fraction in lowest terms. Every float
literal appearing in the embedded inputs is exactly representable, so this
is a faithful model of the float values the claims mention. -/
structure PyFloat where
  num : Int
  den : Nat
deriving DecidableEq, Repr

/-- Build a `PyFloat` from numerator and (positive) denominator, reducing
to lowest terms. -/
def mkPyFloat (n : Int) (d : Nat) : PyFloat :=
  let g := natGcd n.natAbs d
  ⟨n / (g : Int), d / g⟩

/-- The typed values produced by the cast engines (spec §3 `TypedValue`).
`vec`/`point` record the arity of the Panda constructor that was selected
together with the argument list; `bitmask` is the integer value of a
`BitMask32`. -/
inductive Value where
  | int (n : Int)
  | float (q : PyFloat)
  | str (s : String)
  | bool (b : Bool)
  | none
  | list (xs : List Value)
  | tuple (xs : List Value)
  | vec (arity : Nat) (xs : List PyFloat)
  | point (arity : Nat) (xs : List PyFloat)
  | bitmask (mask : Nat)
  | dict (xs : List (Value × Value))

/-- Python whitespace for `str.strip` / `\s` (ASCII subset; the embedded
inputs contain no exotic whitespace). -/
def isPyWs (c : Char) : Bool :=
  c == ' ' || c == '\t' || c == '\n' || c == '\r' || c == '\x0b' || c == '\x0c'

/-- Python `str.strip()`. -/
def pyStrip (s : String) : String :=
  ((s.data.dropWhile isPyWs).reverse.dropWhile isPyWs).reverse.asString

/-- Python `str.lower()` (ASCII). -/
def pyLower (s : String) : String :=
  (s.data.map Char.toLower).asString

/-- Python indexing `s[i]` with negative-index support; out of range raises
`IndexError`. -/
def pyStrGet (s : String) (i : Int) : Except PyExc Char :=
  let cs := s.data
  let j : Int := if i < 0 then i + cs.length else i
  if 0 ≤ j ∧ j < (cs.length : Int) then Except.ok (cs.getD j.toNat ' ')
  else Except.error PyExc.indexError

/-- Python indexing `l[i]` on a list, with negative-index support. -/
def pyListGet {α : Type} (l : List α) (i : Int) : Except PyExc α :=
  let j : Int := if i < 0 then i + l.length else i
  match l.get? j.toNat with
  | Option.some x => if 0 ≤ j then Except.ok x else Except.error PyExc.indexError
  | Option.none => Except.error PyExc.indexError

/-- Python slice `s[a:-1]` (drop the first `a` characters and the final
one, empty when the bounds cross). -/
def pySliceToLast (s : String) (a : Nat) : String :=
  ((s.data.drop a).dropLast).asString

/-- Python `s[:n]`. -/
def pyTake (s : String) (n : Nat) : String :=
  (s.data.take n).asString

/-- Python `str.split(sep)` for a one-character separator (`''.split(',')`
is `['']`, like Python). -/
def pySplitChar (s : String) (sep : Char) : List String :=
  s.splitOn (String.mk [sep])

/-- Digit run to `Nat`. -/
def digitsToNat (cs : List Char) : Nat :=
  cs.foldl (fun a c => a * 10 + (c.toNat - 48)) 0

/-- Python `int(s)` on a string: optional surrounding whitespace, optional
sign, a nonempty digit run. (Underscore separators and non-decimal bases
are outside the model's scope; the embedded inputs do not use them.)
Returns `Option.none` where Python raises `ValueError`. -/
def pyInt? (s : String) : Option Int :=
  let t := (pyStrip s).data
  let signRest : Int × List Char :=
    match t with
    | '+' :: r => (1, r)
    | '-' :: r => (-1, r)
    | r => (1, r)
  let sign := signRest.1
  let rest := signRest.2
  if rest ≠ [] ∧ rest.all Char.isDigit then Option.some (sign * digitsToNat rest)
  else Option.none

/-- Python `float(s)` on a string: optional whitespace and sign, then
`digits`, `digits.digits`, `.digits` or `digits.` (exponents, `inf` and
`nan` are outside the model's scope; the embedded inputs do not use them).
Returns `Option.none` where Python raises `ValueError`. -/
def pyFloat? (s : String) : Option PyFloat :=
  let t := (pyStrip s).data
  let signRest : Int × List Char :=
    match t with
    | '+' :: r => (1, r)
    | '-' :: r => (-1, r)
    | r => (1, r)
  let sign := signRest.1
  let rest := signRest.2
  let intPart := rest.takeWhile Char.isDigit
  let afterInt := rest.dropWhile Char.isDigit
  match afterInt with
  | [] =>
    if intPart ≠ [] then Option.some (mkPyFloat (sign * digitsToNat intPart) 1)
    else Option.none
  | '.' :: fracCs =>
    if fracCs.all Char.isDigit ∧ (intPart ≠ [] ∨ fracCs ≠ []) then
      Option.some (mkPyFloat
        (sign * (digitsToNat intPart * 10 ^ fracCs.length + digitsToNat fracCs))
        (10 ^ fracCs.length))
    else Option.none
  | _ => Option.none

/-- Python `float(s)` raising `ValueError` on failure. -/
def pyFloatE (s : String) : Except PyExc PyFloat :=
  match pyFloat? s with
  | Option.some q => Except.ok q
  | Option.none => Except.error PyExc.valueError

/-- Python `int(s)` raising `ValueError` on failure. -/
def pyIntE (s : String) : Except PyExc Int :=
  match pyInt? s with
  | Option.some n => Except.ok n
  | Option.none => Except.error PyExc.valueError

/-- Python dict assignment `d[k] = v` on an insertion-ordered dict: an
existing key keeps its position and gets the new value, a new key is
appended. -/
def dictSet {α : Type} (d : List (String × α)) (k : String) (v : α) :
    List (String × α) :=
  if d.any (fun p => p.1 == k) then
    d.map (fun p => if p.1 == k then (k, v) else p)
  else d ++ [(k, v)]

/-- Python `dict(pairs).get(k)`: the value of the last pair with key `k`. -/
def dictGetLast {α : Type} (pairs : List (String × α)) (k : String) :
    Option α :=
  (pairs.filter (fun p => p.1 == k)).getLast?.map Prod.snd

/-- Lookup in an association list (first match), Python `d[k]` /
`k in d`. -/
def assocFind {α : Type} (d : List (String × α)) (k : String) : Option α :=
  (d.find? (fun p => p.1 == k)).map Prod.snd

end Gemstone

namespace Gemstone.Cast

/-!
Embedding of `src/panda3d_gemstone/framework/cast.py`: the simple
single-pass cast engine (`CastBridge.__new__` and the registered casters).
-/

/-- The caster classes that `cast.py` registers with the class registry, in
the order of the module-level `__register_internal_caster` calls
(cast.py lines 243-349). -/
inductive CasterId where
  | falseCast
  | trueCast
  | listCast
  | noneCast
  | bitCast
  | pointCast
  | vecCast
  | quotedCast
  | tupleCast
deriving DecidableEq, Repr

/-- Modelled from the spec: `framework/registry.py` (`ClassRegistry`,
`query_meta`) is not in src/. Per the spec, caster registration preserves
order and "first-registered-wins is the documented tie-break" (§4.2, §9),
so `CastBridge.__casters__` holds the casters in the order cast.py
registers them: False, True, List, None, Bit, Point, Vec, QuotedString,
Tuple. -/
def castersInOrder : List CasterId :=
  [CasterId.falseCast, CasterId.trueCast, CasterId.listCast,
   CasterId.noneCast, CasterId.bitCast, CasterId.pointCast,
   CasterId.vecCast, CasterId.quotedCast, CasterId.tupleCast]

/-- First character test, Python `value[0] == c` under a nonemptiness
guard. -/
def strHeadIs (s : String) (c : Char) : Bool :=
  s.data.head? == Option.some c

/-- Last character test, Python `value[-1] == c` under a nonemptiness
guard. -/
def strLastIs (s : String) (c : Char) : Bool :=
  s.data.getLast? == Option.some c

/-- `StringCaster.accepted` (cast.py 194-200): `value.lower() ==
self._key`. -/
def stringCasterAccepted (key : String) (value : String) : Bool :=
  pyLower value == key

/-- `SequenceCaster.accepted` (cast.py 139-143): `value and value[0] ==
self._left and value[-1] == self._right`. -/
def sequenceAccepted (left right : Char) (value : String) : Bool :=
  value ≠ "" && strHeadIs value left && strLastIs value right

/-- `QuotedStringCast.accepted` (cast.py 328-332): `value and value[0] ==
value[-1] and value[0] in ('"', "'")`. -/
def quotedAccepted (value : String) : Bool :=
  value ≠ "" && value.data.head? == value.data.getLast? &&
    (strHeadIs value '"' || strHeadIs value '\x27')

/-- `ScalarCaster.accepted` (cast.py 219-224) and the identically shaped
`PandaBitCast.accepted` (cast.py 280-284):
`value[:n] == self._type_name and value[n] == '(' and value[-1] == ')'`.
When the prefix comparison succeeds, `value[n]` is evaluated next and
raises `IndexError` if the string is exactly the type name (Python `and`
only short-circuits on a false left operand). -/
def scalarAccepted (typeName : String) (value : String) :
    Except PyExc Bool := do
  if pyTake value typeName.length == typeName then
    let c ← pyStrGet value (typeName.length : Int)
    if c == '(' then do
      let d ← pyStrGet value (-1)
      pure (d == ')')
    else pure false
  else pure false

/-- `SequenceCaster.__split` (cast.py 145-169): split on the separator at
bracket depth zero. The Python code keeps a stack of indices and calls
`stack.pop()` for every closing bracket, raising `IndexError` when the
stack is empty; only the stack's length is observable, so the model keeps
the depth. -/
def seqSplit (left right sep : Char) (value : String) :
    Except PyExc (List String) := do
  let fin ← value.data.foldlM
    (fun (st : List String × String × Nat) c =>
      let words := st.1
      let word := st.2.1
      let depth := st.2.2
      if c == left then
        Except.ok (words, word.push c, depth + 1)
      else if c == right then
        match depth with
        | Nat.zero => Except.error PyExc.indexError
        | Nat.succ d => Except.ok (words, word.push c, d)
      else if c == sep ∧ depth == 0 then
        Except.ok (words ++ [pyStrip word], "", depth)
      else
        Except.ok (words, word.push c, depth))
    (([] : List String), "", 0)
  let words := fin.1
  let word := fin.2.1
  if pyStrip word ≠ "" then pure (words ++ [pyStrip word]) else pure words

/-- `SequenceCaster.__call__` (cast.py 171-182): strip the surrounding
brackets, split, recursively cast every piece, and build the sequence
(`mk` is the `list`/`tuple` constructor `self._cls`). -/
def sequenceCall (castRec : String → Except PyExc Value)
    (mk : List Value → Value) (left right sep : Char) (value : String) :
    Except PyExc Value := do
  let inner := pySliceToLast value 1
  let parts ← seqSplit left right sep inner
  if parts ≠ [] then do
    let vals ← parts.mapM castRec
    pure (mk vals)
  else pure (mk [])

/-- `ScalarCaster.__call__` (cast.py 226-234): strip `Name(`/`)`, split on
commas, select the constructor by `self._classes[len(value) - 2]` (a
Python index that may be negative, e.g. -1 selects the last class), then
convert every piece with `float` (raising `ValueError` on a bad piece).
`mkV` builds the `vec`/`point` value from the selected arity. -/
def scalarCall (mkV : Nat → List PyFloat → Value) (arities : List Nat)
    (typeName : String) (value : String) : Except PyExc Value := do
  let inner := pySliceToLast value (typeName.length + 1)
  let parts := pySplitChar inner ','
  let arity ← pyListGet arities ((parts.length : Int) - 2)
  let floats ← parts.mapM pyFloatE
  pure (mkV arity floats)

/-- `PandaBitCast.__call__` (cast.py 286-302): parse the comma-separated
bit indices, `int(n)` each nonempty piece, OR the bits together
(`BitMask32.bit` requires `0 ≤ n < 32`; out-of-range indices trip Panda's
assertion, modelled as an exception). An empty argument list yields the
empty mask. -/
def bitCall (value : String) : Except PyExc Value := do
  let inner := pySliceToLast value 4
  let parts := pySplitChar inner ','
  let bits ← parts.foldlM
    (fun (acc : List Nat) n =>
      if n ≠ "" then do
        let k ← pyIntE n
        if 0 ≤ k ∧ k < 32 then pure (acc ++ [(2 : Nat) ^ k.toNat])
        else Except.error PyExc.valueError
      else pure acc)
    ([] : List Nat)
  match bits with
  | [] => pure (Value.bitmask 0)
  | b :: rest => pure (Value.bitmask (rest.foldl (fun a x => a ||| x) b))

/-- `accepted` of each registered caster, in the shape the class defines
it. -/
def casterAccepted : CasterId → String → Except PyExc Bool
  | CasterId.falseCast, v => Except.ok (stringCasterAccepted "false" v)
  | CasterId.trueCast, v => Except.ok (stringCasterAccepted "true" v)
  | CasterId.listCast, v => Except.ok (sequenceAccepted '[' ']' v)
  | CasterId.noneCast, v => Except.ok (stringCasterAccepted "none" v)
  | CasterId.bitCast, v => scalarAccepted "Bit" v
  | CasterId.pointCast, v => scalarAccepted "Point" v
  | CasterId.vecCast, v => scalarAccepted "Vec" v
  | CasterId.quotedCast, v => Except.ok (quotedAccepted v)
  | CasterId.tupleCast, v => Except.ok (sequenceAccepted '(' ')' v)

/-- `__call__` of each registered caster. `QuotedStringCast.__call__`
returns `value[1:-1]` (cast.py 334-338). -/
def casterCall (castRec : String → Except PyExc Value) :
    CasterId → String → Except PyExc Value
  | CasterId.falseCast, _ => Except.ok (Value.bool false)
  | CasterId.trueCast, _ => Except.ok (Value.bool true)
  | CasterId.listCast, v => sequenceCall castRec Value.list '[' ']' ',' v
  | CasterId.noneCast, _ => Except.ok Value.none
  | CasterId.bitCast, v => bitCall v
  | CasterId.pointCast, v => scalarCall Value.point [2, 3, 4] "Point" v
  | CasterId.vecCast, v => scalarCall Value.vec [2, 3, 4] "Vec" v
  | CasterId.quotedCast, v => Except.ok (Value.str (pySliceToLast v 1))
  | CasterId.tupleCast, v => sequenceCall castRec Value.tuple '(' ')' ',' v

/-- The caster loop of `CastBridge.__new__` (cast.py 120-125): the first
caster whose `accepted` returns true converts the value; if none accepts,
the stripped string itself is the result. -/
def tryCasters (castRec : String → Except PyExc Value) :
    List CasterId → String → Except PyExc Value
  | [], out => Except.ok (Value.str out)
  | c :: rest, out => do
    let acc ← casterAccepted c out
    if acc then casterCall castRec c out else tryCasters castRec rest out

/-- `CastBridge.__new__` (cast.py 103-125), fuelled for the recursion of
the sequence casters into `cast` (every recursive call is on a strictly
shorter string, so `length + 1` fuel at the entry point suffices): try the
primitive casts `int` then `float`; otherwise strip the string and run the
caster loop. -/
def castFuel : Nat → String → Except PyExc Value
  | 0, _ => Except.error PyExc.recursionError
  | Nat.succ fuel, value =>
    match pyInt? value with
    | Option.some n => Except.ok (Value.int n)
    | Option.none =>
      match pyFloat? value with
      | Option.some q => Except.ok (Value.float q)
      | Option.none =>
        tryCasters (castFuel fuel) castersInOrder (pyStrip value)

/-- `cast` (cast.py 127): `cast = CastBridge`, applied to a configuration
value string. -/
def cast (value : String) : Except PyExc Value :=
  castFuel (value.length + 1) value

example : cast "3" = Except.ok (Value.int 3) := by rfl
example : cast "3.5" = Except.ok (Value.float (mkPyFloat 7 2)) := by rfl
example : cast "true" = Except.ok (Value.bool true) := by rfl
example : cast "\x27Hero\x27" = Except.ok (Value.str "Hero") := by rfl
example : cast "[true, false]" =
    Except.ok (Value.list [Value.bool true, Value.bool false]) := by rfl
example : cast "hello" = Except.ok (Value.str "hello") := by rfl
example : cast "Vec" = Except.error PyExc.indexError := by rfl
example : cast "[]]" = Except.error PyExc.indexError := by rfl

end Gemstone.Cast

namespace Gemstone.Ini

/-!
Model of the stdlib `configparser.ConfigParser` collaborator as
`Configurable` uses it (`optionxform = str`, so key case is preserved;
interpolation, continuation lines and inline comments do not occur in the
embedded inputs).
-/

/-- A parsed INI file: sections in file order, each holding its `key:
value` items in file order. -/
structure IniFile where
  sections : List (String × List (String × String))

/-- `reader.has_section(name)`. -/
def IniFile.hasSection (f : IniFile) (name : String) : Bool :=
  f.sections.any (fun p => p.1 == name)

/-- `reader.items(name)` (the empty list for an absent section; the
embedding only calls it on present sections). -/
def IniFile.items (f : IniFile) (name : String) : List (String × String) :=
  (assocFind f.sections name).getD []

/-- `reader.sections()`. -/
def IniFile.sectionNames (f : IniFile) : List String :=
  f.sections.map Prod.fst

/-- `reader.remove_section(name)`. -/
def IniFile.removeSection (f : IniFile) (name : String) : IniFile :=
  ⟨f.sections.filter (fun p => p.1 ≠ name)⟩

/-- `reader.add_section(name)`. -/
def IniFile.addSection (f : IniFile) (name : String) : IniFile :=
  ⟨f.sections ++ [(name, [])]⟩

/-- `reader.set(sec, key, value)`. -/
def IniFile.set (f : IniFile) (sec key value : String) : IniFile :=
  ⟨f.sections.map (fun p =>
    if p.1 == sec then (p.1, dictSet p.2 key value) else p)⟩

/-- One line of INI input: `[Header]` opens a section, `key: value` or
`key = value` (split at the earliest delimiter) adds an item to the
current section, blank and comment lines are skipped. -/
def iniLineStep (st : IniFile × Option String) (line : String) :
    IniFile × Option String :=
  let t := pyStrip line
  let cs := t.data
  if t == "" then st
  else if cs.head? == Option.some '[' ∧ cs.getLast? == Option.some ']' then
    let name := (cs.drop 1).dropLast.asString
    (⟨st.1.sections ++ [(name, [])]⟩, Option.some name)
  else if cs.head? == Option.some '#' ∨ cs.head? == Option.some ';' then st
  else
    match st.2 with
    | Option.none => st
    | Option.some sec =>
      match cs.findIdx? (fun c => c == ':' || c == '=') with
      | Option.none => st
      | Option.some idx =>
        let key := pyStrip (cs.take idx).asString
        let value := pyStrip (cs.drop (idx + 1)).asString
        (⟨st.1.sections.map (fun p =>
          if p.1 == sec then (p.1, p.2 ++ [(key, value)]) else p)⟩, st.2)

/-- Parse a list of INI lines. -/
def iniOfLines (lines : List String) : IniFile :=
  (lines.foldl iniLineStep (⟨[]⟩, Option.none)).1

end Gemstone.Ini

namespace Gemstone.Configurable

open Gemstone.Ini

/-!
Embedding of `src/panda3d_gemstone/framework/configurable.py`:
`Configurable.load`, `Configurable.initialize` and the configuration
caches.
-/

/-- Modelled from the spec: `framework/utilities.py` (`get_snake_case`) is
not in src/. Per spec §4.1 the convention maps a CamelCase label to snake
case (section `AnimationStates` → loader `load_animation_states_data`,
key → setter `set_<snake_case(key)>`): an underscore is inserted before
every uppercase letter that is not the first character, and the result is
lowercased. -/
def getSnakeCase (s : String) : String :=
  (s.data.foldl
    (fun (acc : List Char × Bool) c =>
      if c.isUpper ∧ acc.2 then (acc.1 ++ ['_', c.toLower], true)
      else (acc.1 ++ [c.toLower], true))
    ([], false)).1.asString

/-- `Configurable.__get_setter_name` (configurable.py 394-401):
`'set_%s' % snake_case(key)`. -/
def getSetterName (key : String) : String :=
  "set_" ++ getSnakeCase key

/-- `Configurable.__get_loader_name` (configurable.py 359-366):
`'load_%s_data' % snake_case(section)`. -/
def getLoaderName (sec : String) : String :=
  "load_" ++ getSnakeCase sec ++ "_data"

/-- The `configuration` attribute of a `Configurable` at `initialize`
time: normally a dict, but (the case claim C9 is about) possibly some
other object, recorded with its class name. -/
inductive ConfigField where
  | dict (entries : List (String × Value))
  | nonDict (className : String)

/-- The reflective surface of the owning object that `initialize` probes:
which `set_*` attributes exist, and the `auto_configure` flag. -/
structure InitEnv where
  hasSetter : String → Bool
  autoConfigure : Bool

/-- Observable outcome of `Configurable.initialize`: the setter calls made
(in order, with the argument list — a tuple value is unpacked into
positional arguments), the raw attribute assignments of the
`auto_configure` escape hatch, the missing-setter warnings, whether the
not-a-dict warning fired, and the final `configuration` field. -/
structure InitResult where
  setterCalls : List (String × List Value)
  attrSets : List (String × Value)
  missingSetterWarnings : List String
  warnedBadConfig : Bool
  configuration : ConfigField

/-- `Configurable.initialize` (configurable.py 403-433). When
`configuration` is not a dict the method only emits
`_config_notify.warning(...)` (a DirectNotify warning, which logs and
returns) and returns normally, leaving the object untouched. Otherwise
every entry is dispatched to `set_<snake_case(key)>` when that setter
exists (a tuple value unpacked as positional arguments), or stored as a
raw attribute under `auto_configure`, or warned about; afterwards the
mapping is cleared. Setter bodies belong to the owning object and are
outside the embedding; the calls are recorded. -/
def initializeConfigurable (env : InitEnv) (cfg : ConfigField) : Except PyExc InitResult :=
  match cfg with
  | ConfigField.nonDict _ =>
    Except.ok { setterCalls := [], attrSets := [], missingSetterWarnings := [],
                warnedBadConfig := true, configuration := cfg }
  | ConfigField.dict entries =>
    let fin := entries.foldl
      (fun (acc : List (String × List Value) × List (String × Value) × List String)
           (kv : String × Value) =>
        let setterName := getSetterName kv.1
        if env.hasSetter setterName then
          let args := match kv.2 with
            | Value.tuple xs => xs
            | v => [v]
          (acc.1 ++ [(setterName, args)], acc.2.1, acc.2.2)
        else if env.autoConfigure then
          (acc.1, acc.2.1 ++ [(kv.1, kv.2)], acc.2.2)
        else
          (acc.1, acc.2.1, acc.2.2 ++ [setterName]))
      ([], [], [])
    Except.ok { setterCalls := fin.1, attrSets := fin.2.1,
                missingSetterWarnings := fin.2.2, warnedBadConfig := false,
                configuration := ConfigField.dict [] }

/-- `Configurable.config` (configurable.py 250-256). The property body is
the bare expression `self.__config` with no `return` statement, so the
property evaluates its argument and returns `None` unconditionally. -/
def configProp (_config : Option IniFile) : Option IniFile :=
  Option.none

/-- `Configurable.__include_str` (configurable.py 230). -/
def includeKey : String := "__include__"

/-- The main-section population loop of `Configurable.load`
(configurable.py 315-318): every item except `__include__` is cast and
assigned into `configuration` (overwriting copied included keys
in place). A cast exception (see claim C2) propagates. -/
def castItems : List (String × String) → List (String × Value) →
    Except PyExc (List (String × Value))
  | [], acc => Except.ok acc
  | (k, v) :: rest, acc =>
    if k == includeKey then castItems rest acc
    else
      match Gemstone.Cast.cast v with
      | Except.error e => Except.error e
      | Except.ok w => castItems rest (dictSet acc k w)

/-- `Configurable.__copy_section` (configurable.py 346-357): `dict(data)`
(last occurrence of a key wins), `add_section`, then `set` every pair. -/
def copySection (f : IniFile) (sec : String)
    (data : List (String × String)) : IniFile :=
  let temp := data.foldl (fun d kv => dictSet d kv.1 kv.2) []
  let f1 := f.addSection sec
  temp.foldl (fun acc kv => acc.set sec kv.1 kv.2) f1

/-- Observable outcome of `Configurable.load`: the populated
`configuration` mapping and the `(section, data)` arguments of every
`__load_section` dispatch (configurable.py 368-385), in call order.
Whether the owning object implements the named loader, and the loader
body itself, belong to the object and are outside the embedding. -/
structure LoadResult where
  configuration : List (String × Value)
  loaderCalls : List (String × List (String × String))

/-- `Configurable.load` (configurable.py 281-344), fuelled for the
recursive `Configurable(path=include_path, ...)` construction of the
include branch. `readCfg` is the configuration cache's `read` result per
path (cache behaviour is settled separately, claim C10). Steps, as in the
source: read the file (missing file: warning, `configuration` stays
empty); in the main section, resolve a truthy `__include__` value by
recursively loading that file with the default `Configuration` section,
set `_included_config` to the included object's `config` property (which
returns `None` — see `configProp`), copy the included `configuration`,
then cast-and-assign the section's own items; dispatch every non-main
section through `__load_section`, merging entries of `_included_config`
underneath the current file's when that section exists there; finally
dispatch sections of `_included_config` that were not processed. -/
def loadConfig : Nat → (String → Option IniFile) → String → String →
    Except PyExc LoadResult
  | 0, _, _, _ => Except.error PyExc.recursionError
  | Nat.succ fuel, readCfg, path, mainSection =>
    match readCfg path with
    | Option.none => Except.ok { configuration := [], loaderCalls := [] }
    | Option.some cfg =>
      let withMain : Except PyExc
          (List (String × Value) × List String × Option IniFile) :=
        if cfg.hasSection mainSection then
          let data := cfg.items mainSection
          match dictGetLast data includeKey with
          | Option.some ip =>
            if ip ≠ "" then
              match loadConfig fuel readCfg ip "Configuration" with
              | Except.error e => Except.error e
              | Except.ok inc =>
                match castItems data inc.configuration with
                | Except.error e => Except.error e
                | Except.ok cfg1 =>
                  Except.ok (cfg1, [mainSection], configProp (readCfg ip))
            else
              match castItems data [] with
              | Except.error e => Except.error e
              | Except.ok cfg1 => Except.ok (cfg1, [], Option.none)
          | Option.none =>
            match castItems data [] with
            | Except.error e => Except.error e
            | Except.ok cfg1 => Except.ok (cfg1, [], Option.none)
        else Except.ok ([], [], Option.none)
      match withMain with
      | Except.error e => Except.error e
      | Except.ok (config1, processed1, includedConfig) =>
        let loop1 := (cfg.sectionNames.filter (fun s => s ≠ mainSection)).foldl
          (fun (st : IniFile × List String ×
                     List (String × List (String × String))) sec =>
            let data := st.1.items sec
            match includedConfig with
            | Option.some incCfg =>
              if incCfg.hasSection sec then
                let data2 := incCfg.items sec ++ data
                (copySection (st.1.removeSection sec) sec data2,
                 st.2.1 ++ [sec], st.2.2 ++ [(sec, data2)])
              else (st.1, st.2.1, st.2.2 ++ [(sec, data)])
            | Option.none => (st.1, st.2.1, st.2.2 ++ [(sec, data)]))
          (cfg, processed1, [])
        let loop2 := match includedConfig with
          | Option.some incCfg =>
            (incCfg.sectionNames.filter
              (fun s => ¬ loop1.2.1.contains s)).map
              (fun sec => (sec, incCfg.items sec))
          | Option.none => []
        Except.ok { configuration := config1,
                    loaderCalls := loop1.2.2 ++ loop2 }

end Gemstone.Configurable

namespace Gemstone.Configurable

open Gemstone.Ini

/-- The file-system state the caches observe: `ini p` is the parse result
of the INI file at path `p` (`Option.none` when the file is missing),
`dat p` the pickled reader stored in a `.dat` cache blob, and `date p`
the value of `get_file_date(p)`.

Modelled from the spec: `io/file_system.py` (`get_file_date`) is not in
src/; per spec §4.1 the caches "only re-parse when the source file's
modification time is newer than the cached parse", so `get_file_date`
returns the file's modification time, `0` for a missing file (making it
falsy in `if get_file_date(dat_file) and self._use_dat`). -/
structure CacheFS where
  ini : String → Option IniFile
  dat : String → Option IniFile
  date : String → Int

/-- `OSConfigurableCache.get_cache_filename` (configurable.py 148-157):
`os.path.splitext(filepath)[0] + '.dat'` — the extension after the last
dot of the basename is replaced by `.dat`. -/
def getCacheFilename (filepath : String) : String :=
  let cs := filepath.data
  match cs.reverse.findIdx? (fun c => c == '.' || c == '/') with
  | Option.some i =>
    if cs.reverse.getD i ' ' == '.' then
      (cs.take (cs.length - 1 - i)).asString ++ ".dat"
    else filepath ++ ".dat"
  | Option.none => filepath ++ ".dat"

/-- `RawOSConfigurableCache` state: the `_files` dict mapping a path to
the `(reader, get_file_date(path))` pair stored at its first read. -/
structure RawCacheState where
  files : List (String × (Option IniFile × Int))

/-- `RawOSConfigurableCache.__read_file` (configurable.py 100-116): parse
the INI file; a missing file logs a warning and yields `None`. (The
`except` branch — an unreadable file — calls `notify.error`, which
raises; the files of the embedded scenarios are either readable or
absent.) -/
def rawReadFile (fs : CacheFS) (filepath : String) : Option IniFile :=
  fs.ini filepath

/-- Result of `RawOSConfigurableCache.read`: the returned reader, the
cache state afterwards, and whether `__read_file` was invoked. -/
structure RawReadOut where
  result : Option IniFile
  state : RawCacheState
  fileRead : Bool

/-- `RawOSConfigurableCache.read` (configurable.py 118-128): when the
path is not yet cached, read the file and store
`(reader, get_file_date(filepath))` — including a `None` reader for a
failed read — then return the stored reader's first component. No date
is ever compared again. -/
def rawCacheRead (fs : CacheFS) (st : RawCacheState) (filepath : String) :
    RawReadOut :=
  match assocFind st.files filepath with
  | Option.some entry => ⟨entry.1, st, false⟩
  | Option.none =>
    let r := rawReadFile fs filepath
    ⟨r, ⟨dictSet st.files filepath (r, fs.date filepath)⟩, true⟩

/-- `OSConfigurableCache` state: the `_files` dict and the
`gs-use-dat` configuration flag (default `False`). -/
structure OSCacheState where
  files : List (String × (Option IniFile × Int))
  useDat : Bool

/-- Result of `OSConfigurableCache.read`: the returned reader, the state
afterwards, the file system afterwards (the method may rewrite the `.dat`
blob), and whether the source INI file was re-parsed. -/
structure OSReadOut where
  result : Option IniFile
  state : OSCacheState
  fs : CacheFS
  fileRead : Bool

/-- `OSConfigurableCache.read` (configurable.py 177-216), with `now` the
modification time the OS stamps on a file written at this moment. When
the source is newer than its `.dat` blob, the source is re-parsed and
pickled into the blob (lines 183-195; the `except IOError: pass` makes
write failures silent — writes succeed in the model). A cache miss then
either unpickles the blob when `gs-use-dat` is set — where line 201
`pickle.load(fh.read())` passes bytes where a file object is expected
and raises `TypeError` — or re-parses the source and stores it with the
blob's date. A cache hit re-loads from the blob when the blob's date is
newer than the stored date (lines 208-210; `open` on a missing blob
would raise `IOError`). -/
def osCacheRead (now : Int) (fs : CacheFS) (st : OSCacheState)
    (filepath : String) : Except PyExc OSReadOut :=
  let datFile := getCacheFilename filepath
  let refresh : Bool := fs.date filepath > fs.date datFile
  let fs1 :=
    if refresh then
      match fs.ini filepath with
      | Option.some reader =>
        { fs with
          dat := fun q => if q == datFile then Option.some reader else fs.dat q,
          date := fun q => if q == datFile then now else fs.date q }
      | Option.none => fs
    else fs
  match assocFind st.files filepath with
  | Option.none =>
    if fs1.date datFile ≠ 0 ∧ st.useDat then
      Except.error PyExc.typeError
    else
      let reader := fs1.ini filepath
      Except.ok ⟨reader,
        ⟨dictSet st.files filepath (reader, fs1.date datFile), st.useDat⟩,
        fs1, true⟩
  | Option.some (r, d) =>
    if fs1.date datFile > d then
      match fs1.dat datFile with
      | Option.some r2 =>
        Except.ok ⟨Option.some r2,
          ⟨dictSet st.files filepath (Option.some r2, fs1.date datFile),
           st.useDat⟩, fs1, refresh⟩
      | Option.none => Except.error PyExc.ioError
    else Except.ok ⟨r, st, fs1, refresh⟩

end Gemstone.Configurable

namespace Gemstone

/-- Python `\w` (ASCII): letters, digits, underscore. -/
def isWordChar (c : Char) : Bool :=
  c.isAlphanum || c == '_'

/-- Start of a `[A-Za-z_]\w*` word. -/
def isWordStart (c : Char) : Bool :=
  c.isAlpha || c == '_'

end Gemstone

namespace Gemstone.Resource

/-!
Embedding of `src/panda3d_gemstone/framework/resource.py`:
`ExportProperty.parse` and `__partition_export_steps`.
-/

/-- `ExportProperty` (resource.py 46-61): `output_filename` is the `key`
argument (`None` by default), `input_filename` starts empty, `options`
empty. -/
structure ExportProperty where
  outputFilename : Option String := Option.none
  converter : Option String := Option.none
  inputFilename : String := ""
  options : List (String × Value) := []

/-- `__partition_export_steps` (resource.py 278-297): group a flat step
list into chains. The chain-extension branch executes
`current_chain.apppend(export_step)` (line 289) — lists have no `apppend`
method, so the statement raises `AttributeError` whenever a step's input
filename equals the previous step's output filename (Python `str ==
None` is `False`, not an error). -/
def partitionExportSteps (steps : List ExportProperty) :
    Except PyExc (List (List ExportProperty)) :=
  match steps with
  | [] => Except.ok []
  | s0 :: rest =>
    match rest.foldlM
      (fun (st : List (List ExportProperty) × List ExportProperty) step =>
        let lastOut := (st.2.getLast?.map
          (fun e => e.outputFilename)).join
        if Option.some step.inputFilename == lastOut then
          (Except.error (PyExc.attributeError "apppend") :
            Except PyExc (List (List ExportProperty) × List ExportProperty))
        else Except.ok (st.1 ++ [st.2], [step]))
      (([] : List (List ExportProperty)), [s0]) with
    | Except.error e => Except.error e
    | Except.ok fin => Except.ok (fin.1 ++ [fin.2])

/-- `ExportProperty.FILENAME_RE` (resource.py 50):
`^\s*([^\t\n\r\f\v (]+)\s*(.*)$` — leading whitespace, then group 1, a
nonempty run of characters that are neither whitespace nor `(`, then
whitespace, then the rest as group 2. -/
def filenameReMatch (s : String) : Option (String × String) :=
  let cs := s.data.dropWhile isPyWs
  let fn := cs.takeWhile (fun c => ¬ (isPyWs c ∨ c == '('))
  if fn == [] then Option.none
  else
    let rest := (cs.drop fn.length).dropWhile isPyWs
    Option.some (fn.asString, rest.asString)

/-- `ExportProperty.OPTION_RE` (resource.py 51):
`^\s*(?:(\w+)\(([^(]*)\))\s*(.*)$` — whitespace, a nonempty `\w+` word
(group 1; note it does not admit a leading `-`), a literal `(`, group 2 a
run without `(` ending at a `)` (the greedy `[^(]*` backtracks to the
last `)` inside the run), then whitespace and the rest as group 3. -/
def optionReMatch (s : String) : Option (String × String × String) :=
  let cs := s.data.dropWhile isPyWs
  let w := cs.takeWhile isWordChar
  if w == [] then Option.none
  else
    match cs.drop w.length with
    | '(' :: rest =>
      let run := rest.takeWhile (fun c => c ≠ '(')
      match run.reverse.findIdx? (fun c => c == ')') with
      | Option.none => Option.none
      | Option.some ri =>
        let vlen := run.length - 1 - ri
        let value := (run.take vlen).asString
        let after := (rest.drop (vlen + 1)).dropWhile isPyWs
        Option.some (w.asString, value, after.asString)
    | _ => Option.none

/-- The `while rest:` loop of `ExportProperty.parse` (resource.py
108-118), fuelled. When `OPTION_RE` fails to match, the body calls
`self.notify.error(...)` — DirectNotify's `Notifier.error` raises — so
the `rest = ''` / `continue` statements after it never run. When
`OPTION_RE` matches, the body does nothing at all: the four statements
that would record the option (lines 115-118, `optname = '-' +
m.group(1)` and following) sit inside the `if not m:` block after its
`continue` and are dead code, so `rest` never changes and the loop does
not terminate. `Option.none` is the ran-out-of-fuel (non-termination)
outcome. -/
def parseOptionsLoop : Nat → String → Option (Except PyExc Unit)
  | 0, rest => if rest == "" then Option.some (Except.ok ()) else Option.none
  | Nat.succ fuel, rest =>
    if rest == "" then Option.some (Except.ok ())
    else
      match optionReMatch rest with
      | Option.none => Option.some (Except.error PyExc.notifyError)
      | Option.some _ => parseOptionsLoop fuel rest

/-- `ExportProperty.parse` (resource.py 95-118): match `FILENAME_RE` (a
mismatch calls `notify.error`, which raises), set `input_filename` and
run the option loop. On normal termination the parsed
`(input_filename, options)` pair is returned — the options dict is
necessarily still empty, because the statements that would fill it are
unreachable. -/
def exportParse (fuel : Nat) (data : String) :
    Option (Except PyExc (String × List (String × Value))) :=
  match filenameReMatch data with
  | Option.none => Option.some (Except.error PyExc.notifyError)
  | Option.some (fn, rest) =>
    match parseOptionsLoop fuel rest with
    | Option.none => Option.none
    | Option.some (Except.error e) => Option.some (Except.error e)
    | Option.some (Except.ok _) => Option.some (Except.ok (fn, []))

end Gemstone.Resource

namespace Gemstone.Pcast

/-!
Embedding of `src/panda3d_gemstone/framework/pcast.py`: the
tokenizer-based cast variant.
-/

/-- Token kinds of the `tokenize` module that pcast inspects. -/
inductive TokKind where
  | op
  | number
  | name
  | strLit
  | newline
  | endmarker
deriving DecidableEq, Repr

/-- One token: its kind (`token[0]`) and text (`token[1]`). -/
structure Tok where
  kind : TokKind
  text : String
deriving DecidableEq, Repr

/-- Model of `tokenize.generate_tokens` for the single-line expressions
pcast consumes: operators and brackets are one-character OP tokens, digit
runs (with an optional decimal point) NUMBER tokens, identifier runs NAME
tokens, quoted runs STRING tokens (text including the quotes); a
synthetic NEWLINE and the ENDMARKER close the stream. An unterminated
bracket or string raises `TokenError`. The model tokenizes eagerly while
CPython's tokenizer is lazy; on the inputs the theorems evaluate, the
whole stream tokenizes without error, so the two coincide. -/
def tokenizeLoop : Nat → List Char → Int → List Tok → Except PyExc (List Tok)
  | 0, _, _, _ => Except.error PyExc.recursionError
  | Nat.succ fuel, cs, depth, acc =>
    match cs with
    | [] =>
      if depth > 0 then Except.error PyExc.tokenError
      else Except.ok (acc ++ [⟨TokKind.newline, ""⟩, ⟨TokKind.endmarker, ""⟩])
    | c :: rest =>
      if isPyWs c then tokenizeLoop fuel rest depth acc
      else if c.isDigit then
        let run := (c :: rest).takeWhile (fun x => x.isDigit || x == '.')
        tokenizeLoop fuel ((c :: rest).drop run.length) depth
          (acc ++ [⟨TokKind.number, run.asString⟩])
      else if isWordStart c then
        let run := (c :: rest).takeWhile isWordChar
        tokenizeLoop fuel ((c :: rest).drop run.length) depth
          (acc ++ [⟨TokKind.name, run.asString⟩])
      else if c == '"' || c == '\x27' then
        let inner := rest.takeWhile (fun x => x ≠ c)
        if inner.length == rest.length then Except.error PyExc.tokenError
        else tokenizeLoop fuel (rest.drop (inner.length + 1)) depth
          (acc ++ [⟨TokKind.strLit, (c :: (inner ++ [c])).asString⟩])
      else
        let depth2 :=
          if c == '(' || c == '[' || c == '\x7b' then depth + 1
          else if c == ')' || c == ']' || c == '\x7d' then depth - 1
          else depth
        tokenizeLoop fuel rest depth2 (acc ++ [⟨TokKind.op, (String.mk [c])⟩])

/-- Tokenize a full string. -/
def pyTokenize (s : String) : Except PyExc (List Tok) :=
  tokenizeLoop (s.length + 1) s.data 0 []

/-- The remaining token stream; `next(src)` pops the head and raises
`StopIteration` when exhausted. -/
def nextTok : List Tok → Except PyExc (Tok × List Tok)
  | [] => Except.error PyExc.stopIteration
  | t :: ts => Except.ok (t, ts)

/-- Defunctionalized call states of the mutually recursive pcast
functions: `castTok` is `__cast(token, src)`, `dictLoop` the
`while token[1] != '}'` loop inside `__cast_dict` with its accumulated
entries. -/
inductive PcastCall where
  | castTok (token : Tok) (src : List Tok)
  | dictLoop (token : Tok) (src : List Tok) (entries : List (Value × Value))

/-- `__cast` (pcast.py 168-194) and `__cast_dict` (pcast.py 77-96),
fuelled. `__cast` tries `__cast_dict` and returns any non-`None` result;
otherwise line 176 evaluates `__cast_kist` — an undefined module-level
name (the list caster is spelled `__castList`) — and the lookup raises
`NameError`, so no later branch of `__cast` is reachable. The dict loop
follows the source: cast the key, demand `:`, cast the value after it,
store the entry, skip a `,`. (Python's `out[key] = value` deduplicates
equal keys and rejects unhashable ones; neither case is exercised by the
theorems, entries are recorded in order.) -/
def pcastRun : Nat → PcastCall → Except PyExc (Value × List Tok)
  | 0, _ => Except.error PyExc.recursionError
  | Nat.succ fuel, PcastCall.castTok token src =>
    if token.text == "\x7b" then
      match nextTok src with
      | Except.error e => Except.error e
      | Except.ok (t1, s1) => pcastRun fuel (PcastCall.dictLoop t1 s1 [])
    else Except.error (PyExc.nameError "__cast_kist")
  | Nat.succ fuel, PcastCall.dictLoop token src entries =>
    if token.text == "\x7d" then Except.ok (Value.dict entries, src)
    else
      match pcastRun fuel (PcastCall.castTok token src) with
      | Except.error e => Except.error e
      | Except.ok (key, s1) =>
        match nextTok s1 with
        | Except.error e => Except.error e
        | Except.ok (t2, s2) =>
          if t2.text ≠ ":" then Except.error PyExc.syntaxError
          else
            match nextTok s2 with
            | Except.error e => Except.error e
            | Except.ok (t3, s3) =>
              match pcastRun fuel (PcastCall.castTok t3 s3) with
              | Except.error e => Except.error e
              | Except.ok (value, s4) =>
                match nextTok s4 with
                | Except.error e => Except.error e
                | Except.ok (t5, s5) =>
                  if t5.text == "," then
                    match nextTok s5 with
                    | Except.error e => Except.error e
                    | Except.ok (t6, s6) =>
                      pcastRun fuel
                        (PcastCall.dictLoop t6 s6 (entries ++ [(key, value)]))
                  else
                    pcastRun fuel
                      (PcastCall.dictLoop t5 s5 (entries ++ [(key, value)]))

/-- `cast` (pcast.py 196-218). The `except` clauses for `ValueError`,
`SyntaxError` and `tokenize.TokenError` call
`__pcast_notify.error(fmt, msg)`; DirectNotify's
`Notifier.error(errorString, exception=Exception)` raises rather than
logs (and is here even handed the caught exception instance in the
`exception` slot), modelled as `notifyError`. A caught `StopIteration`
re-raises `SyntaxError` explicitly (line 213-214). Any other exception —
in particular the `NameError` from `__cast` — propagates unchanged. The
trailing-token check (lines 204-206) accepts only NEWLINE/ENDMARKER
leftovers. -/
def cast (txt : String) : Except PyExc (Option Value) :=
  let t := pyStrip txt
  if t == "" then Except.ok Option.none
  else
    match pyTokenize t with
    | Except.error PyExc.tokenError => Except.error PyExc.notifyError
    | Except.error e => Except.error e
    | Except.ok toks =>
      match nextTok toks with
      | Except.error PyExc.stopIteration => Except.error PyExc.syntaxError
      | Except.error e => Except.error e
      | Except.ok (t0, src) =>
        match pcastRun (toks.length + 1) (PcastCall.castTok t0 src) with
        | Except.ok (v, rest) =>
          if rest.all (fun tk =>
              tk.kind == TokKind.newline || tk.kind == TokKind.endmarker) then
            Except.ok (Option.some v)
          else Except.error PyExc.notifyError
        | Except.error PyExc.valueError => Except.error PyExc.notifyError
        | Except.error PyExc.syntaxError => Except.error PyExc.notifyError
        | Except.error PyExc.stopIteration => Except.error PyExc.syntaxError
        | Except.error e => Except.error e

example : cast "" = Except.ok Option.none := by rfl
example : cast "\x7b\x7d" = Except.ok (Option.some (Value.dict [])) := by rfl
example : cast "-" = Except.error (PyExc.nameError "__cast_kist") := by rfl

end Gemstone.Pcast

namespace Gemstone.IndentedFile

/-!
Embedding of `src/panda3d_gemstone/io/indented_file.py`: the
indentation-structured parser (`parse`, default `cast_args=False`).
-/

/-- A parsed line (`ParserNode`, indented_file.py 40-57). `parent` is an
index into the node list produced by `parse` (the Python node holds the
parent object itself; nodes are appended in order, so the index renders
the reference). `name` is `None` when the optional second word is absent
(the regex group is unmatched). `indent` records the line's
leading-whitespace length, which the Python loop keeps in a local and in
the stack. -/
structure ParserNode where
  free : String
  type : String
  name : Option String
  args : String
  parent : Option Nat
  indent : Nat
deriving DecidableEq, Repr

/-- `__strip_comment` (indented_file.py 75-83): truncate the line at the
first occurrence of the comment character. -/
def stripComment (line : String) (commentHead : Char) : String :=
  (line.data.takeWhile (fun c => c ≠ commentHead)).asString

/-- `LINE_RE` (indented_file.py 34-36):
`(\s*)(\*?)\s*([A-Za-z_]\w*)\s*([A-Za-z_]\w*)?\s*\:\s*(.*)` under
`re.match`. Returns the groups: leading-whitespace length (the indent),
the optional `*` free marker, the type word, the optional name word, and
the args text after the colon and any following whitespace. The
deterministic translation is faithful: the bordering character classes
(whitespace, word characters, `*`, `:`) are disjoint, so the backtracking
engine has a single viable parse. -/
def lineMatch (line : String) :
    Option (Nat × String × String × Option String × String) :=
  let cs := line.data
  let ws1 := cs.takeWhile isPyWs
  let r1 := cs.drop ws1.length
  let starR2 : String × List Char :=
    match r1 with
    | '*' :: t => ("*", t)
    | _ => ("", r1)
  let r2 := starR2.2.dropWhile isPyWs
  match r2 with
  | [] => Option.none
  | c :: t =>
    if isWordStart c then
      let w1tail := t.takeWhile isWordChar
      let word1 := (c :: w1tail).asString
      let r3 := (t.drop w1tail.length).dropWhile isPyWs
      let word2R4 : Option String × List Char :=
        match r3 with
        | d :: u =>
          if isWordStart d then
            let w2tail := u.takeWhile isWordChar
            (Option.some ((d :: w2tail).asString), u.drop w2tail.length)
          else (Option.none, r3)
        | [] => (Option.none, r3)
      let r4 := word2R4.2.dropWhile isPyWs
      match r4 with
      | ':' :: rest =>
        Option.some (ws1.length, starR2.1, word1, word2R4.1,
          (rest.dropWhile isPyWs).asString)
      | _ => Option.none
    else Option.none

/-- Parser state: the nodes emitted so far and the
`(parents, parents_indent)` stack as (node index, indent) pairs with the
top first. Python seeds `parents_indent` with a `-1` sentinel; every real
indent is `≥ 0 > -1`, so the sentinel is rendered by the empty stack. -/
structure ParseState where
  nodes : List ParserNode
  stack : List (Nat × Nat)

/-- Parent resolution (indented_file.py 132-133): after the pops, the
new top of the stack — if any — is the parent. -/
def resolveParent (stack2 : List (Nat × Nat)) : Option Nat :=
  match stack2 with
  | [] => Option.none
  | p :: _ => Option.some p.1

/-- The accepted-line tail of the `parse` loop (indented_file.py
120-136): pop the stack while the top's indent is `≥` the line's indent
(`while indent <= parents_indent[-1]`), let the remaining top (if any) be
the parent, append the node and push it. -/
def pushNode (st : ParseState) (indent : Nat) (star ty : String)
    (nm : Option String) (args : String) : ParseState :=
  { nodes := st.nodes ++
      [{ free := star, type := ty, name := nm, args := args,
         parent := resolveParent (st.stack.dropWhile (fun p => indent ≤ p.2)),
         indent := indent }],
    stack := (st.nodes.length, indent) ::
      st.stack.dropWhile (fun p => indent ≤ p.2) }

/-- One iteration of the `parse` loop (indented_file.py 104-136): strip
`#` and `;` comments, skip blank lines, skip lines `LINE_RE` rejects
(syntax-error warning), otherwise resolve the parent and push the node
(`pushNode`). -/
def parseStep (st : ParseState) (line : String) : ParseState :=
  let l1 := stripComment (stripComment line '#') ';'
  if pyStrip l1 == "" then st
  else
    match lineMatch l1 with
    | Option.none => st
    | Option.some (indent, star, ty, nm, args) =>
      pushNode st indent star ty nm args

/-- `parse` (indented_file.py 85-138) over the file's lines (the file is
read line by line; `cast_args` defaults to `False` and the claims do not
exercise it). -/
def parse (lines : List String) : List ParserNode :=
  (lines.foldl parseStep { nodes := [], stack := [] }).nodes

example : (parse ["a:", "    b:", "    c:"]).map ParserNode.parent =
    [Option.none, Option.some 0, Option.some 0] := by rfl
example : (parse ["a:", "    b:", "c:"]).map ParserNode.parent =
    [Option.none, Option.some 0, Option.none] := by rfl

end Gemstone.IndentedFile

namespace Gemstone.Scenario

open Gemstone.Ini Gemstone.Configurable Gemstone.Resource

/-- The configuration file of the claim C1 scenario:
`[Configuration]`, `speed: 3.5`, `name: 'Hero'`, `flags: [true, false]`. -/
def heroIni : IniFile :=
  iniOfLines ["[Configuration]", "speed: 3.5", "name: \x27Hero\x27",
              "flags: [true, false]"]

/-- A file system holding only the C1 file. -/
def heroFs : String → Option IniFile :=
  fun p => if p == "hero.ini" then Option.some heroIni else Option.none

/-- The C1 target object: it exposes exactly `set_speed`, `set_name` and
`set_flags`, with `auto_configure` off (the default). -/
def heroEnv : InitEnv :=
  { hasSetter := fun n => n == "set_speed" || n == "set_name" || n == "set_flags",
    autoConfigure := false }

/-- `load()` of the C1 scenario. -/
def heroLoad : Except PyExc LoadResult :=
  loadConfig 1 heroFs "hero.ini" "Configuration"

/-- Claim C3's base file: the main section declares
`__include__ = other.ini` and defines key `a` (raw value `s1`). -/
def c3Base (s1 : String) : IniFile :=
  ⟨[("Configuration", [("__include__", "other.ini"), ("a", s1)])]⟩

/-- Claim C3's included file: keys `a` and `b` (raw values `s2`, `s3`). -/
def c3Other (s2 s3 : String) : IniFile :=
  ⟨[("Configuration", [("a", s2), ("b", s3)])]⟩

/-- The two-file system of claim C3. -/
def c3Fs (s1 s2 s3 : String) : String → Option IniFile :=
  fun p =>
    if p == "base.ini" then Option.some (c3Base s1)
    else if p == "other.ini" then Option.some (c3Other s2 s3)
    else Option.none

/-- Claim C4's base file: only the main section, with the include. -/
def c4Base : IniFile :=
  ⟨[("Configuration", [("__include__", "other.ini")])]⟩

/-- Claim C4's included file: a section `Extra` that exists only there. -/
def c4Other : IniFile :=
  ⟨[("Configuration", []), ("Extra", [("k", "v")])]⟩

/-- The two-file system of claim C4's first scenario. -/
def c4Fs : String → Option IniFile :=
  fun p =>
    if p == "base.ini" then Option.some c4Base
    else if p == "other.ini" then Option.some c4Other
    else Option.none

/-- Claim C4's second scenario: a section `Shared` present in both
files. -/
def c4BaseB : IniFile :=
  ⟨[("Configuration", [("__include__", "other.ini")]),
    ("Shared", [("x", "1")])]⟩

/-- The included file of the second C4 scenario. -/
def c4OtherB : IniFile :=
  ⟨[("Configuration", []), ("Shared", [("y", "2")])]⟩

/-- The two-file system of claim C4's second scenario. -/
def c4FsB : String → Option IniFile :=
  fun p =>
    if p == "base.ini" then Option.some c4BaseB
    else if p == "other.ini" then Option.some c4OtherB
    else Option.none

/-- Claim C6's step A: output filename `x` (a chain head with no input). -/
def stepA : ExportProperty :=
  { outputFilename := Option.some "x", inputFilename := "" }

/-- Claim C6's step B: input `x`, output `y` (chains after A). -/
def stepB : ExportProperty :=
  { outputFilename := Option.some "y", inputFilename := "x" }

/-- Claim C6's step C: input `z`, output `w` (starts a new chain). -/
def stepC : ExportProperty :=
  { outputFilename := Option.some "w", inputFilename := "z" }

/-- A concrete parsed INI file for the C10 witness. -/
def c10IniOld : IniFile := ⟨[("Configuration", [("a", "1")])]⟩

/-- A newer parse of the same file for the C10 witness. -/
def c10IniNew : IniFile := ⟨[("Configuration", [("a", "2")])]⟩

/-- The C10 witness file system: `a.ini` is present with modification
time 10; its `.dat` blob does not exist yet (date 0). -/
def c10Fs : CacheFS :=
  { ini := fun q => if q == "a.ini" then Option.some c10IniNew else Option.none,
    dat := fun _ => Option.none,
    date := fun q => if q == "a.ini" then 10 else 0 }

/-- The C10 witness cache state: `a.ini` cached with the old parse at
date 3, `gs-use-dat` off (the default). -/
def c10St : OSCacheState :=
  { files := [("a.ini", (Option.some c10IniOld, 3))], useDat := false }

end Gemstone.Scenario


namespace Gemstone

/-- Auxiliary for `assocFind_dictSet_self`: the overwrite branch of
`dictSet` makes the key map to the new value. -/
theorem find?_map_overwrite {α : Type} (k : String) (v : α) :
    ∀ (d : List (String × α)), d.any (fun p => p.1 == k) = true →
      assocFind (d.map (fun p => if p.1 == k then (k, v) else p)) k =
        Option.some v
  | [], h => by simp at h
  | p :: rest, h => by
    cases hp : (p.1 == k) with
    | true =>
      unfold assocFind
      rw [List.map_cons, if_pos hp, List.find?_cons_of_pos _ (by simp)]
      rfl
    | false =>
      have h2 : rest.any (fun q => q.1 == k) = true := by
        simp only [List.any_cons, hp, Bool.false_or] at h
        exact h
      have ih := find?_map_overwrite k v rest h2
      unfold assocFind at ih ⊢
      rw [List.map_cons, if_neg (by simp [hp]),
        List.find?_cons_of_neg _ (by simp [hp])]
      exact ih

/-- Auxiliary for `assocFind_dictSet_self`: the append branch of
`dictSet` makes the key map to the new value. -/
theorem find?_append_new {α : Type} (k : String) (v : α) :
    ∀ (d : List (String × α)), d.any (fun p => p.1 == k) = false →
      assocFind (d ++ [(k, v)]) k = Option.some v
  | [], _ => by
    unfold assocFind
    rw [List.nil_append, List.find?_cons_of_pos _ (by simp)]
    rfl
  | p :: rest, h => by
    have hsplit : (p.1 == k) = false ∧
        rest.any (fun q => q.1 == k) = false := by
      simpa [List.any_cons, Bool.or_eq_false_iff] using h
    have ih := find?_append_new k v rest hsplit.2
    unfold assocFind at ih ⊢
    rw [List.cons_append, List.find?_cons_of_neg _ (by simp [hsplit.1])]
    exact ih

/-- Looking up the key just stored by `dictSet` yields the stored
value. -/
theorem assocFind_dictSet_self {α : Type} (d : List (String × α))
    (k : String) (v : α) :
    assocFind (dictSet d k v) k = Option.some v := by
  cases h : d.any (fun p => p.1 == k) with
  | true =>
    unfold dictSet
    rw [if_pos h]
    exact find?_map_overwrite k v d h
  | false =>
    unfold dictSet
    rw [if_neg (by simp [h])]
    exact find?_append_new k v d h

end Gemstone

namespace Gemstone.IndentedFile

/-- Stack consistency invariant of the indented-file parser: every stack
entry points at an emitted node whose recorded indent matches the stack
entry's. -/
def stackOK (nodes : List ParserNode) (stack : List (Nat × Nat)) : Prop :=
  ∀ p ∈ stack, ∃ n, nodes[p.1]? = Option.some n ∧ n.indent = p.2

/-- Parent invariant: every emitted node with a parent points at an
emitted node of strictly smaller indent. -/
def nodesOK (nodes : List ParserNode) : Prop :=
  ∀ (i j : Nat) (ni : ParserNode), nodes[i]? = Option.some ni →
    ni.parent = Option.some j →
    ∃ nj, nodes[j]? = Option.some nj ∧ nj.indent < ni.indent

/-- The head surviving a `dropWhile` fails the predicate. -/
theorem dropWhile_head_false {α : Type} (p : α → Bool) (l : List α) (x : α)
    (xs : List α) (h : l.dropWhile p = x :: xs) : p x = false := by
  induction l with
  | nil => simp [List.dropWhile_nil] at h
  | cons a t ih =>
    rw [List.dropWhile_cons] at h
    by_cases hp : p a = true
    · rw [if_pos hp] at h
      exact ih h
    · rw [if_neg hp] at h
      injection h with h1 h2
      subst h1
      simpa using hp

/-- `pushNode` preserves both parser invariants. -/
theorem pushNode_inv (st : ParseState) (indent : Nat) (star ty : String)
    (nm : Option String) (args : String)
    (h1 : stackOK st.nodes st.stack) (h2 : nodesOK st.nodes) :
    stackOK (pushNode st indent star ty nm args).nodes
      (pushNode st indent star ty nm args).stack ∧
    nodesOK (pushNode st indent star ty nm args).nodes := by
  unfold pushNode stackOK nodesOK
  constructor
  · intro p hp
    rcases List.mem_cons.mp hp with hhead | htail
    · subst hhead
      exact ⟨_, List.getElem?_concat_length _ _, rfl⟩
    · obtain ⟨n, hn, hi⟩ := h1 p (List.dropWhile_subset _ htail)
      have hlt : p.1 < st.nodes.length := (List.getElem?_eq_some.mp hn).1
      exact ⟨n, by rw [List.getElem?_append_left hlt]; exact hn, hi⟩
  · intro i j ni hni hpar
    by_cases hi : i < st.nodes.length
    · rw [List.getElem?_append_left hi] at hni
      obtain ⟨nj, hnj, hlt⟩ := h2 i j ni hni hpar
      have hj : j < st.nodes.length := (List.getElem?_eq_some.mp hnj).1
      exact ⟨nj, by rw [List.getElem?_append_left hj]; exact hnj, hlt⟩
    · have hub : i < st.nodes.length + 1 := by
        have := (List.getElem?_eq_some.mp hni).1
        simpa using this
      have hlen : i = st.nodes.length := by omega
      subst hlen
      rw [List.getElem?_concat_length] at hni
      injection hni with hni
      subst hni
      cases hcase : st.stack.dropWhile (fun p => indent ≤ p.2) with
      | nil =>
        rw [hcase] at hpar
        simp [resolveParent] at hpar
      | cons top rest2 =>
        rw [hcase] at hpar
        simp only [resolveParent, Option.some.injEq] at hpar
        subst hpar
        obtain ⟨n, hn, hieq⟩ := h1 top
          (List.dropWhile_subset _ (hcase ▸ List.mem_cons_self top rest2))
        have hfalse : (decide (indent ≤ top.2)) = false :=
          dropWhile_head_false _ st.stack top rest2 hcase
        have hlt2 : top.2 < indent := by
          have := of_decide_eq_false hfalse
          omega
        have hl : top.1 < st.nodes.length := (List.getElem?_eq_some.mp hn).1
        refine ⟨n, ?_, ?_⟩
        · rw [List.getElem?_append_left hl]
          exact hn
        · show n.indent < indent
          omega

/-- The fold of `parseStep` preserves the invariants. -/
theorem parseFold_inv (lines : List String) (st : ParseState)
    (h1 : stackOK st.nodes st.stack) (h2 : nodesOK st.nodes) :
    nodesOK (lines.foldl parseStep st).nodes := by
  induction lines generalizing st with
  | nil => exact h2
  | cons l rest ih =>
    have hstep : stackOK (parseStep st l).nodes (parseStep st l).stack ∧
        nodesOK (parseStep st l).nodes := by
      unfold parseStep
      by_cases hb : pyStrip (stripComment (stripComment l '#') ';') == ""
      · rw [if_pos hb]
        exact ⟨h1, h2⟩
      · rw [if_neg hb]
        cases hm : lineMatch (stripComment (stripComment l '#') ';') with
        | none => exact ⟨h1, h2⟩
        | some g =>
          obtain ⟨indent, star, ty, nm, args⟩ := g
          exact pushNode_inv st indent star ty nm args h1 h2
    exact ih (parseStep st l) hstep.1 hstep.2

/-- Every node list `parse` produces satisfies the parent invariant. -/
theorem parse_nodesOK (lines : List String) : nodesOK (parse lines) := by
  unfold parse
  refine parseFold_inv lines { nodes := [], stack := [] } ?_ ?_
  · unfold stackOK
    intro p hp
    cases hp
  · unfold nodesOK
    intro i j ni hni hpar
    simp at hni

end Gemstone.IndentedFile

namespace Gemstone.Resource

/-- The option loop never terminates on a matching option token: the
loop body is dead code after `continue`, so the state repeats. -/
theorem parseOptionsLoop_scale_none :
    ∀ fuel : Nat, parseOptionsLoop fuel "scale(2)" = Option.none := by
  intro fuel
  induction fuel with
  | zero => rfl
  | succ f ih =>
    show parseOptionsLoop f "scale(2)" = Option.none
    exact ih

end Gemstone.Resource

open Gemstone Gemstone.Ini Gemstone.Configurable Gemstone.Resource
  Gemstone.IndentedFile Gemstone.Scenario

/-- C1: loading the config file `[Configuration]` / `speed: 3.5` /
`name: 'Hero'` / `flags: [true, false]` and calling `initialize()` on an
object exposing `set_speed`, `set_name` and `set_flags` casts the three
values to the float `3.5` (= 7/2 exactly), the unquoted string `"Hero"`
and the boolean list `[True, False]`, and dispatches each to the setter
named `set_<snake_case(key)>` — no attribute fallbacks, no
missing-setter warnings, and the mapping is cleared afterwards. -/
theorem claim_C1 :
    ∃ r, heroLoad = Except.ok r ∧
      r.configuration =
        [("speed", Value.float (mkPyFloat 7 2)),
         ("name", Value.str "Hero"),
         ("flags", Value.list [Value.bool true, Value.bool false])] ∧
      initializeConfigurable heroEnv (ConfigField.dict r.configuration) =
        Except.ok
          { setterCalls :=
              [("set_speed", [Value.float (mkPyFloat 7 2)]),
               ("set_name", [Value.str "Hero"]),
               ("set_flags", [Value.list [Value.bool true, Value.bool false]])],
            attrSets := [], missingSetterWarnings := [],
            warnedBadConfig := false,
            configuration := ConfigField.dict [] } :=
  ⟨_, rfl, rfl, rfl⟩

/-- C2 (refuting evaluation): `cast` is not total — on the degenerate
inputs the claim itself lists, `ScalarCaster.accepted` /
`PandaBitCast.accepted` evaluate `value[len(type_name)]` after a
successful prefix comparison and `SequenceCaster.__split` pops an empty
stack, so `cast` raises `IndexError` instead of returning the raw
string. -/
theorem claim_C2 :
    Gemstone.Cast.cast "Vec" = Except.error PyExc.indexError ∧
    Gemstone.Cast.cast "Point" = Except.error PyExc.indexError ∧
    Gemstone.Cast.cast "Bit" = Except.error PyExc.indexError ∧
    Gemstone.Cast.cast "[]]" = Except.error PyExc.indexError :=
  ⟨rfl, rfl, rfl, rfl⟩

/-- C4 (evaluation at the failing input): because the `config` property
returns `None` (missing `return`), `load()` dispatches no section coming
only from the included file — the `Extra` section of `other.ini` is
never passed to `__load_section` — and a section present in both files
is dispatched with the current file's items only (`Shared` sees just
`x: 1`, not the included `y: 2`). -/
theorem claim_C4 :
    (loadConfig 2 c4Fs "base.ini" "Configuration").map
      LoadResult.loaderCalls = Except.ok [] ∧
    (loadConfig 2 c4FsB "base.ini" "Configuration").map
      LoadResult.loaderCalls = Except.ok [("Shared", [("x", "1")])] :=
  ⟨rfl, rfl⟩

/-- C5 (evaluation at the failing input): on a malformed expression —
the dangling operator `-`, or a dictionary missing its colon — pcast's
`cast` does not return `None`: `__cast` evaluates the undefined name
`__cast_kist` and the resulting `NameError` is caught by none of the
handlers, propagating to the caller. -/
theorem claim_C5 :
    Gemstone.Pcast.cast "-" = Except.error (PyExc.nameError "__cast_kist") ∧
    Gemstone.Pcast.cast "\x7b1 2\x7d" =
      Except.error (PyExc.nameError "__cast_kist") :=
  ⟨rfl, rfl⟩

/-- C6 (evaluation at the failing input): partitioning the flat list
A(out=x), B(in=x, out=y), C(in=z, out=w) does not produce the chains
[[A, B], [C]] — as soon as B's input filename equals A's output
filename, `current_chain.apppend(export_step)` (a misspelling of
`append`) raises `AttributeError`. -/
theorem claim_C6 :
    partitionExportSteps [stepA, stepB, stepC] =
      Except.error (PyExc.attributeError "apppend") :=
  rfl

/-- C7: in every node list produced by `parse`, a node with a parent has
a parent of strictly smaller indentation (the pop-while-top-indent-≥
stack discipline guarantees it); concretely, for lines at indents 0, 4,
4 the second and third nodes share the first as parent, and for indents
0, 4, 0 the third node has no parent. -/
theorem claim_C7 :
    (∀ (lines : List String) (i j : Nat) (ni : ParserNode),
      (parse lines)[i]? = Option.some ni → ni.parent = Option.some j →
      ∃ nj, (parse lines)[j]? = Option.some nj ∧ nj.indent < ni.indent) ∧
    (parse ["a:", "    b:", "    c:"]).map ParserNode.parent =
      [Option.none, Option.some 0, Option.some 0] ∧
    (parse ["a:", "    b:", "c:"]).map ParserNode.parent =
      [Option.none, Option.some 0, Option.none] :=
  ⟨fun lines i j ni hni hpar => parse_nodesOK lines i j ni hni hpar,
   rfl, rfl⟩

/-- C7 witness: the parent-indent bound instantiated on the concrete
0/4/4 scene — node 1 (`    b:`, indent 4) has parent node 0, whose
indent is strictly smaller. -/
theorem claim_C7_witness :
    ∃ nj, (parse ["a:", "    b:", "    c:"])[0]? = Option.some nj ∧
      nj.indent < ({ free := "", type := "b", name := Option.none,
                     args := "", parent := Option.some 0,
                     indent := 4 } : ParserNode).indent :=
  claim_C7.1 ["a:", "    b:", "    c:"] 1 0
    { free := "", type := "b", name := Option.none, args := "",
      parent := Option.some 0, indent := 4 } (by rfl) (by rfl)

/-- C8 (evaluation at the failing input): a config line with an option
token is not parsed into an options mapping. With the claim's documented
`-name(value)` form, `OPTION_RE` (whose first group is `\w+`) rejects
the leading `-` and `parse` raises through `notify.error`; with the form
`OPTION_RE` does accept (`name(value)`, no dash), the loop never
terminates, because the statements that would consume the token and
store the option are dead code after `continue`. Only a line with zero
option tokens terminates normally — with an empty options mapping. -/
theorem claim_C8 :
    (∀ fuel : Nat, exportParse (fuel + 1) "model.egg -scale(2)" =
      Option.some (Except.error PyExc.notifyError)) ∧
    (∀ fuel : Nat, exportParse fuel "model.egg scale(2)" = Option.none) ∧
    exportParse 1 "model.egg" =
      Option.some (Except.ok ("model.egg", [])) := by
  refine ⟨fun fuel => rfl, fun fuel => ?_, rfl⟩
  have h : exportParse fuel "model.egg scale(2)" =
      match parseOptionsLoop fuel "scale(2)" with
      | Option.none => Option.none
      | Option.some (Except.error e) => Option.some (Except.error e)
      | Option.some (Except.ok _) =>
        Option.some (Except.ok ("model.egg", [])) := rfl
  rw [h, parseOptionsLoop_scale_none]

/-- C9 counterexample: calling `initialize()` with a non-dict
`configuration` does not raise — it returns normally (an `Except.ok`
with no setter dispatched and the field untouched), refuting the claim
that this contract violation escalates to a hard failure. -/
theorem claim_C9_counterexample :
    initializeConfigurable
      { hasSetter := fun _ => false, autoConfigure := false }
      (ConfigField.nonDict "list") =
    Except.ok { setterCalls := [], attrSets := [], missingSetterWarnings := [],
                warnedBadConfig := true,
                configuration := ConfigField.nonDict "list" } :=
  rfl

/-- C9 (amended): calling `initialize()` on a `Configurable` whose
`configuration` field is not a dict logs a warning and returns normally
— no exception, no setter dispatch, no attribute assignment, and the
`configuration` field is left unchanged (it is handled by the same
warn-and-continue policy as data errors). -/
theorem claim_C9 (env : InitEnv) (tag : String) :
    initializeConfigurable env (ConfigField.nonDict tag) =
      Except.ok { setterCalls := [], attrSets := [],
                  missingSetterWarnings := [], warnedBadConfig := true,
                  configuration := ConfigField.nonDict tag } :=
  rfl

/-- C3: with a base file whose main section declares
`__include__ = other.ini` and defines `a`, and `other.ini` defining `a`
and `b`, the merged configuration after `load()` holds the base file's
`a` and the included file's `b` — own keys win on conflict and no key is
lost or duplicated. Stated for arbitrary raw value strings whose casts
succeed (the normal case; a raising cast propagates instead, claim
C2). -/
theorem claim_C3 (s1 s2 s3 : String) (v1 v2 v3 : Value)
    (h1 : Gemstone.Cast.cast s1 = Except.ok v1)
    (h2 : Gemstone.Cast.cast s2 = Except.ok v2)
    (h3 : Gemstone.Cast.cast s3 = Except.ok v3) :
    loadConfig 2 (c3Fs s1 s2 s3) "base.ini" "Configuration" =
      Except.ok { configuration := [("a", v1), ("b", v3)],
                  loaderCalls := [] } := by
  have einner : castItems [("a", s2), ("b", s3)] [] =
      Except.ok [("a", v2), ("b", v3)] := by
    simp [castItems, includeKey, h2, h3, dictSet]
  have eouter : castItems [("__include__", "other.ini"), ("a", s1)]
      [("a", v2), ("b", v3)] = Except.ok [("a", v1), ("b", v3)] := by
    simp [castItems, includeKey, h1, dictSet]
  show loadConfig (Nat.succ (Nat.succ 0)) (c3Fs s1 s2 s3) "base.ini"
    "Configuration" = _
  simp only [loadConfig, c3Fs, c3Base, c3Other]
  simp [IniFile.hasSection, IniFile.items, IniFile.sectionNames, assocFind,
    dictGetLast, includeKey, configProp, einner, eouter]

/-- C3 witness: the include-merge theorem instantiated on concrete value
strings (`a: 1` in the base, `a: 2`, `b: 3` in the included file). -/
theorem claim_C3_witness :
    loadConfig 2 (c3Fs "1" "2" "3") "base.ini" "Configuration" =
      Except.ok { configuration := [("a", Value.int 1), ("b", Value.int 3)],
                  loaderCalls := [] } :=
  claim_C3 "1" "2" "3" (Value.int 1) (Value.int 2) (Value.int 3)
    (by rfl) (by rfl) (by rfl)

/-- C10: the raw OS cache never invalidates — once
`RawOSConfigurableCache.read` has stored a parse result for a path
(including a `None` result for a failed read), every later read of the
same path returns that stored object without invoking `__read_file`,
whatever the file system (content or modification times) looks like by
then; the `OSConfigurableCache` variant, by contrast, does re-parse on
staleness: with `gs-use-dat` off, a cached entry whose source file has
become newer than its `.dat` blob is refreshed to the file's current
parse. -/
theorem claim_C10 :
    (∀ (fs0 fs1 : CacheFS) (st : RawCacheState) (p : String),
      rawCacheRead fs1 (rawCacheRead fs0 st p).state p =
        { result := (rawCacheRead fs0 st p).result,
          state := (rawCacheRead fs0 st p).state, fileRead := false }) ∧
    (∀ (now : Int) (fs : CacheFS) (st : OSCacheState) (p : String)
        (r : Option IniFile) (d : Int) (rNew : IniFile),
      st.useDat = false →
      assocFind st.files p = Option.some (r, d) →
      fs.ini p = Option.some rNew →
      fs.date p > fs.date (getCacheFilename p) →
      now > d →
      ∃ fs1, osCacheRead now fs st p = Except.ok
        { result := Option.some rNew,
          state := { files := dictSet st.files p (Option.some rNew, now),
                     useDat := false },
          fs := fs1, fileRead := true }) := by
  constructor
  · intro fs0 fs1 st p
    unfold rawCacheRead rawReadFile
    cases hfind : assocFind st.files p with
    | some entry => simp [hfind]
    | none =>
      simp only [hfind]
      simp [assocFind_dictSet_self]
  · intro now fs st p r d rNew hU hf hini hnewer hd
    refine ⟨{ fs with
      dat := fun q => if q == getCacheFilename p then Option.some rNew
        else fs.dat q,
      date := fun q => if q == getCacheFilename p then now
        else fs.date q }, ?_⟩
    unfold osCacheRead
    simp only [hf, hini, hU]
    simp [decide_eq_true hnewer, hd, beq_self_eq_true]

/-- C10 witness: the OS-variant staleness conjunct instantiated — file
`a.ini` cached at date 3, the source touched to date 10 with no `.dat`
blob yet, clock at 20: the read returns the fresh parse and restamps the
cache entry. -/
theorem claim_C10_witness :
    ∃ fs1, osCacheRead 20 c10Fs c10St "a.ini" = Except.ok
      { result := Option.some c10IniNew,
        state := { files := dictSet c10St.files "a.ini"
                     (Option.some c10IniNew, 20), useDat := false },
        fs := fs1, fileRead := true } :=
  claim_C10.2 20 c10Fs c10St "a.ini" (Option.some c10IniOld) 3 c10IniNew
    rfl (by rfl) (by rfl) (by decide) (by decide)
